import Mathlib

/-!
Verification of the durable task-execution core of the core-exchange sample
(fault injector `chaos.ts`, Temporal retry configuration `workflows.ts`, and the
paginated data activities `activities.ts`).

Pure parts are embedded directly from the TypeScript source.  The Temporal
retry engine, failure classifier and activity registry live in the Temporal
SDK, not in this repository's sources; those are modelled from the spec
(§4.1, §4.3, §6) and are marked `Modelled from the spec:` in their doc
comments.  Random draws (`Math.random()`) are modelled as an explicit stream
`ℕ → ℚ` of values; durations are rationals measured in milliseconds.
-/

namespace CoreExchange

/-- The nine failure kinds of `ChaosErrorType` in `chaos.ts`. -/
inductive ChaosErrorType
  | DATABASE_CONNECTION
  | DATABASE_TIMEOUT
  | DATABASE_DEADLOCK
  | NETWORK_TIMEOUT
  | NETWORK_CONNECTION_REFUSED
  | SERVICE_UNAVAILABLE
  | INTERNAL_SERVER_ERROR
  | RESOURCE_EXHAUSTED
  | NON_RETRYABLE_ERROR
deriving DecidableEq, Repr

/-- The string value of each enum member in `chaos.ts`. -/
def chaosTypeName : ChaosErrorType → String
  | .DATABASE_CONNECTION => "DATABASE_CONNECTION"
  | .DATABASE_TIMEOUT => "DATABASE_TIMEOUT"
  | .DATABASE_DEADLOCK => "DATABASE_DEADLOCK"
  | .NETWORK_TIMEOUT => "NETWORK_TIMEOUT"
  | .NETWORK_CONNECTION_REFUSED => "NETWORK_CONNECTION_REFUSED"
  | .SERVICE_UNAVAILABLE => "SERVICE_UNAVAILABLE"
  | .INTERNAL_SERVER_ERROR => "INTERNAL_SERVER_ERROR"
  | .RESOURCE_EXHAUSTED => "RESOURCE_EXHAUSTED"
  | .NON_RETRYABLE_ERROR => "NON_RETRYABLE_ERROR"

/-- `Object.values(ChaosErrorType)` — the enum members in declaration order. -/
def allChaosErrorTypes : List ChaosErrorType :=
  [ .DATABASE_CONNECTION, .DATABASE_TIMEOUT, .DATABASE_DEADLOCK,
    .NETWORK_TIMEOUT, .NETWORK_CONNECTION_REFUSED, .SERVICE_UNAVAILABLE,
    .INTERNAL_SERVER_ERROR, .RESOURCE_EXHAUSTED, .NON_RETRYABLE_ERROR ]

/-- One entry of the `errorConfigs` table in `chaos.ts`. -/
structure ErrorConfig where
  message : String
  statusCode : Nat
  retryable : Bool
deriving DecidableEq, Repr

/-- The `errorConfigs` table of `chaos.ts`, verbatim. -/
def errorConfigs : ChaosErrorType → ErrorConfig
  | .DATABASE_CONNECTION =>
      ⟨"Failed to connect to database: connection refused", 503, true⟩
  | .DATABASE_TIMEOUT =>
      ⟨"Database query timed out after 30000ms", 504, true⟩
  | .DATABASE_DEADLOCK =>
      ⟨"Transaction deadlock detected, please retry", 503, true⟩
  | .NETWORK_TIMEOUT =>
      ⟨"Network request timed out", 504, true⟩
  | .NETWORK_CONNECTION_REFUSED =>
      ⟨"Connection refused: upstream service unavailable", 502, true⟩
  | .SERVICE_UNAVAILABLE =>
      ⟨"Service temporarily unavailable due to high load", 503, true⟩
  | .INTERNAL_SERVER_ERROR =>
      ⟨"An unexpected internal error occurred", 500, false⟩
  | .RESOURCE_EXHAUSTED =>
      ⟨"Resource exhausted: too many open connections", 503, true⟩
  | .NON_RETRYABLE_ERROR =>
      ⟨"A non-retryable error occurred", 500, false⟩

/-- Partial inverse of `chaosTypeName`, mirroring the
`Object.values(ChaosErrorType).includes(t)` membership test plus the cast. -/
def chaosTypeOfName (s : String) : Option ChaosErrorType :=
  allChaosErrorTypes.find? (fun k => chaosTypeName k = s)

/-- JS `String.prototype.split(",")` on the character list: every comma is a
separator, so `n` commas yield `n+1` fields (possibly empty). -/
def splitOnCommaChars : List Char → List (List Char)
  | [] => [[]]
  | c :: rest =>
      match splitOnCommaChars rest with
      | [] => [[]]
      | cur :: out => if c = ',' then [] :: cur :: out else (c :: cur) :: out

/-- JS `String.prototype.trim()` on the character list: strip leading and
trailing whitespace. -/
def trimChars (l : List Char) : List Char :=
  ((l.dropWhile Char.isWhitespace).reverse.dropWhile Char.isWhitespace).reverse

/-- `parseEnabledErrorTypes` from `chaos.ts`.  The environment variable
`CHAOS_ERROR_TYPES` is the argument: `none` models an unset variable, and the
JS falsiness test `!envTypes` also treats the empty string as unset.  Otherwise
the value is split on commas, each piece trimmed and upper-cased, and the
result filtered to valid enum values (`filter` + cast modelled as
`filterMap`). -/
def parseEnabledErrorTypes (env : Option String) : List ChaosErrorType :=
  match env with
  | none => allChaosErrorTypes
  | some s =>
      if s = "" then allChaosErrorTypes
      else
        ((splitOnCommaChars s.data).map
            (fun t => String.mk ((trimChars t).map Char.toUpper))).filterMap
          chaosTypeOfName

/-- The `ChaosConfig` record of `chaos.ts` (`getConfig()` output). -/
structure ChaosConfig where
  enabled : Bool
  errorRate : ℚ
  enabledErrorTypes : List ChaosErrorType
deriving DecidableEq, Repr

/-- Observable outcome of one call to `maybeCauseChaos`: return normally,
throw a classified `ApplicationFailure`, or crash with the unclassified JS
`TypeError` that arises when `errorConfigs[undefined].message` is read. -/
inductive ChaosOutcome
  | noop
  | raise (kind : ChaosErrorType) (message : String) (retryable : Bool)
  | typeError
deriving DecidableEq, Repr

/-- A structured log record: the operation name plus the rest of the entry. -/
structure LogEntry where
  operation : String
  message : String
deriving DecidableEq, Repr

/-- Result of one call to `maybeCauseChaos`: the outcome, the log entries
emitted, and how many `Math.random()` draws were consumed. -/
structure ChaosResult where
  outcome : ChaosOutcome
  logs : List LogEntry
  consumed : Nat
deriving DecidableEq, Repr

/-- `maybeCauseChaos` from `chaos.ts`.  `rs` is the stream of `Math.random()`
values, consumed in order: draw 0 is the error-rate check, draw 1 the kind
index.  JS array indexing out of range yields `undefined`, and reading
`.message` off `errorConfigs[undefined]` throws a `TypeError` before the log
statement runs; this is the `typeError` branch. -/
def maybeCauseChaos (cfg : ChaosConfig) (operationName : String)
    (rs : ℕ → ℚ) : ChaosResult :=
  if cfg.enabled = false then ⟨.noop, [], 0⟩
  else if rs 0 > cfg.errorRate then ⟨.noop, [], 1⟩
  else
    let idx := (Int.floor (rs 1 * (cfg.enabledErrorTypes.length : ℚ))).toNat
    match cfg.enabledErrorTypes[idx]? with
    | none => ⟨.typeError, [], 2⟩
    | some k =>
        let ec := errorConfigs k
        ⟨.raise k ec.message ec.retryable,
          [⟨operationName, "Chaos monkey triggered: " ++ chaosTypeName k⟩], 2⟩

/-- Result of one call to `maybeCauseChaosAsync`: the injected latency in
milliseconds (if any), then the chaos outcome. -/
structure AsyncChaosResult where
  latency : Option ℤ
  outcome : ChaosOutcome
  logs : List LogEntry
  consumed : Nat
deriving DecidableEq, Repr

/-- Shift a random stream past the first `k` consumed draws. -/
def shiftStream (rs : ℕ → ℚ) (k : ℕ) : ℕ → ℚ := fun i => rs (i + k)

/-- `maybeCauseChaosAsync` from `chaos.ts`.  `addLatency` is
`process.env.CHAOS_ADD_LATENCY === "true"`.  When disabled, nothing runs.  The
latency conjunction short-circuits: with `addLatency` false no draw is
consumed; otherwise draw 0 decides (`< 0.3`) and draw 1 sizes the delay
(`Math.floor(Math.random() * 500)`).  `maybeCauseChaos` then runs on the
remaining stream. -/
def maybeCauseChaosAsync (cfg : ChaosConfig) (addLatency : Bool)
    (operationName : String) (rs : ℕ → ℚ) : AsyncChaosResult :=
  if cfg.enabled = false then ⟨none, .noop, [], 0⟩
  else if addLatency = true ∧ rs 0 < 3/10 then
    let extraLatency := Int.floor (rs 1 * 500)
    let inner := maybeCauseChaos cfg operationName (shiftStream rs 2)
    ⟨some extraLatency, inner.outcome,
      ⟨operationName, "Chaos monkey adding latency"⟩ :: inner.logs,
      2 + inner.consumed⟩
  else
    let skip := if addLatency = true then 1 else 0
    let inner := maybeCauseChaos cfg operationName (shiftStream rs skip)
    ⟨none, inner.outcome, inner.logs, skip + inner.consumed⟩

/-- The retry policy configured on all activities in
`temporal/workflows.ts` via `proxyActivities` — durations in milliseconds. -/
structure RetryPolicy where
  initialInterval : ℚ
  backoffCoefficient : ℚ
  maxInterval : ℚ
  maxAttempts : Nat
  nonRetryableErrorTypes : List String
deriving DecidableEq, Repr

/-- The policy literal of `workflows.ts`: `initialInterval: "500ms"`,
`backoffCoefficient: 2`, `maximumInterval: "5s"`, `maximumAttempts: 10`,
`nonRetryableErrorTypes: ["NonRetryableError"]`. -/
def referenceRetryPolicy : RetryPolicy :=
  ⟨500, 2, 5000, 10, ["NonRetryableError"]⟩

/-- A classified failure as it reaches the retry engine: the failure type
string, its message, and whether it was thrown via
`ApplicationFailure.nonRetryable`. -/
structure FailureInfo where
  type : String
  message : String
  nonRetryable : Bool
deriving DecidableEq, Repr

/-- The failure produced when `maybeCauseChaos` raises kind `k`: the type is
the enum's string value (used as the `ApplicationFailure` type), and the
failure is marked non-retryable exactly when `errorConfigs[k].retryable` is
false. -/
def chaosFailure (k : ChaosErrorType) : FailureInfo :=
  ⟨chaosTypeName k, (errorConfigs k).message, !(errorConfigs k).retryable⟩

/-- Outcome of a single activity attempt. -/
inductive AttemptOutcome
  | success
  | failure (f : FailureInfo)
deriving DecidableEq, Repr

/-- Terminal outcome of a task. -/
inductive TaskResult
  | success
  | failure (f : FailureInfo) (attemptsMade : Nat)
deriving DecidableEq, Repr

/-- A whole run of a task: attempts made, the scheduled retry delays in
milliseconds (in order), and the terminal result. -/
structure RunOutcome where
  attempts : Nat
  delays : List ℚ
  result : TaskResult
deriving DecidableEq, Repr

/-- Modelled from the spec: the backoff formula of the Retry Policy Engine
(§4.3), whose implementation is the Temporal SDK and not part of this
repository's sources.  The delay scheduled before attempt `n` (`n ≥ 2`) is
`min(initialInterval * backoffCoefficient^(n-2), maxInterval)`. -/
def backoffDelay (p : RetryPolicy) (n : Nat) : ℚ :=
  min (p.initialInterval * p.backoffCoefficient ^ (n - 2)) p.maxInterval

/-- Modelled from the spec: the Retry Policy Engine (§4.3), whose
implementation is the Temporal SDK.  At attempt `attempt`: on success, stop;
on failure, stop terminally if the failure is marked non-retryable, or its
type is in `nonRetryableErrorTypes`, or `attempt ≥ maxAttempts`; otherwise
schedule attempt `attempt+1` after `backoffDelay p (attempt+1)`.  The first
`ℕ` argument is recursion fuel; instantiated with `maxAttempts` (as in
`runRetries`) the `maxAttempts ≤ attempt` guard always fires before the fuel
runs out, so the fuel-exhausted clause is unreachable there. -/
def runRetriesGo (p : RetryPolicy) (out : Nat → AttemptOutcome) :
    Nat → Nat → RunOutcome
  | 0, attempt =>
      match out attempt with
      | .success => ⟨attempt, [], .success⟩
      | .failure f => ⟨attempt, [], .failure f attempt⟩
  | fuel + 1, attempt =>
      match out attempt with
      | .success => ⟨attempt, [], .success⟩
      | .failure f =>
          if f.nonRetryable = true ∨ f.type ∈ p.nonRetryableErrorTypes ∨
              p.maxAttempts ≤ attempt then
            ⟨attempt, [], .failure f attempt⟩
          else
            let rest := runRetriesGo p out fuel (attempt + 1)
            ⟨rest.attempts, backoffDelay p (attempt + 1) :: rest.delays,
              rest.result⟩

/-- Modelled from the spec: a full task run under policy `p`, where attempt
`n` produces `out n`.  Attempts are 1-indexed. -/
def runRetries (p : RetryPolicy) (out : Nat → AttemptOutcome) : RunOutcome :=
  runRetriesGo p out p.maxAttempts 1

/-- A failure raised during activity execution, as seen by the classifier:
either it carries one of the nine taxonomy kinds, or it is an unclassified
defect carrying only a message. -/
inductive RaisedError
  | classified (k : ChaosErrorType) (message : String)
  | unclassified (message : String)
deriving DecidableEq, Repr

/-- Modelled from the spec: the classifier of §4.1 ("classification is total
... unclassified exceptions are treated as `InternalServerError`
(non-retryable)"); the implementation lives in the Temporal worker, not in
this repository's sources. -/
def classifyError : RaisedError → ChaosErrorType
  | .classified k _ => k
  | .unclassified _ => .INTERNAL_SERVER_ERROR

/-- The failure surfaced for a raised error: its classified kind's type name
and retryability, with the original message. -/
def surfacedFailure (e : RaisedError) : FailureInfo :=
  let k := classifyError e
  ⟨chaosTypeName k,
    match e with
    | .classified _ m => m
    | .unclassified m => m,
    !(errorConfigs k).retryable⟩

/-- Modelled from the spec: the Activity Registry (§6), implemented by the
Temporal SDK (`Worker.create({ ..., activities })`), not in this repository's
sources.  Registration under an already-registered name is rejected. -/
def registerActivity {α : Type} (r : List (String × α)) (name : String)
    (impl : α) : Option (List (String × α)) :=
  if name ∈ r.map Prod.fst then none else some ((name, impl) :: r)

/-- Modelled from the spec: invoking a registered activity by name (§6);
an unregistered name is a `NonRetryable` failure rather than a silent call of
a missing function. -/
def invokeActivity {α : Type} (r : List (String × α)) (name : String) :
    Except FailureInfo α :=
  match r.find? (fun p => p.1 = name) with
  | some p => .ok p.2
  | none =>
      .error ⟨chaosTypeName .NON_RETRYABLE_ERROR,
        "no activity registered under name " ++ name, true⟩

/-- `Array.prototype.slice` index resolution: a negative index counts from the
end (clamped at 0), a non-negative one is clamped at the length. -/
def jsSliceIdx (len : Nat) (i : ℤ) : Nat :=
  if i < 0 then ((len : ℤ) + i).toNat else min i.toNat len

/-- `Array.prototype.slice(start, stop)`: the elements from the resolved
start index (inclusive) to the resolved stop index (exclusive). -/
def jsSlice {α : Type} (l : List α) (start stop : ℤ) : List α :=
  (l.take (jsSliceIdx l.length stop)).drop (jsSliceIdx l.length start)

/-- A statement as the date filter of `getAccountStatements` sees it:
`statementDate` is the parsed timestamp (ms since epoch) of the source's
`statementDate` string; the rest of the record is opaque payload. -/
structure Statement (α : Type) where
  statementDate : ℤ
  payload : α
deriving DecidableEq, Repr

/-- A transaction as the date filter of `getAccountTransactions` sees it:
`postedTimestamp` is the parsed timestamp of the source's `postedTimestamp`
string; the rest is opaque payload. -/
structure Transaction (α : Type) where
  postedTimestamp : ℤ
  payload : α
deriving DecidableEq, Repr

/-- `PaginatedAccountsResult` from `types/fdx.ts`. -/
structure PaginatedAccountsResult (α : Type) where
  accounts : List α
  total : Nat
deriving DecidableEq, Repr

/-- `PaginatedStatementsResult` from `types/fdx.ts`. -/
structure PaginatedStatementsResult (α : Type) where
  statements : List (Statement α)
  total : Nat
deriving DecidableEq, Repr

/-- `PaginatedTransactionsResult` from `types/fdx.ts`. -/
structure PaginatedTransactionsResult (α : Type) where
  transactions : List (Transaction α)
  total : Nat
deriving DecidableEq, Repr

/-- `PaginatedPaymentNetworksResult` from `types/fdx.ts`. -/
structure PaginatedPaymentNetworksResult (α : Type) where
  paymentNetworks : List α
  total : Nat
deriving DecidableEq, Repr

/-- `PaginatedAssetTransferNetworksResult` from `types/fdx.ts`. -/
structure PaginatedAssetTransferNetworksResult (α : Type) where
  assetTransferNetworks : List α
  total : Nat
deriving DecidableEq, Repr

/-- `getAccounts` from `activities.ts` (data-shaping part; `accounts` is the
backing dataset, whose literal contents are out of scope):
`accounts.slice(offset, offset + limit)` with `total = accounts.length`. -/
def getAccounts {α : Type} (accounts : List α) (offset limit : ℤ) :
    PaginatedAccountsResult α :=
  ⟨jsSlice accounts offset (offset + limit), accounts.length⟩

/-- The date bounds of `getAccountStatements`/`getAccountTransactions`:
an empty time string is falsy, so the bound defaults to `new Date(0)` resp.
`new Date(8640000000000000)`; `none` models the empty string and `some t` a
string parsing to timestamp `t`. -/
def dateRange (startTime endTime : Option ℤ) : ℤ × ℤ :=
  (startTime.getD 0, endTime.getD 8640000000000000)

/-- The date-filtered statement collection of `getAccountStatements`: the
account's statements (`|| []` for an unknown account) whose date lies in
`[startDate, endDate]`. -/
def filteredStatements {α : Type} (data : String → Option (List (Statement α)))
    (accountId : String) (startTime endTime : Option ℤ) : List (Statement α) :=
  let bounds := dateRange startTime endTime
  ((data accountId).getD []).filter
    (fun s => bounds.1 ≤ s.statementDate ∧ s.statementDate ≤ bounds.2)

/-- `getAccountStatements` from `activities.ts`: fetch the account's
statements, keep those in the date range, slice `[offset, offset+limit)`,
and report the filtered collection's size as `total`. -/
def getAccountStatements {α : Type} (data : String → Option (List (Statement α)))
    (accountId : String) (offset limit : ℤ) (startTime endTime : Option ℤ) :
    PaginatedStatementsResult α :=
  let statements := filteredStatements data accountId startTime endTime
  ⟨jsSlice statements offset (offset + limit), statements.length⟩

/-- The date-filtered transaction collection of `getAccountTransactions`. -/
def filteredTransactions {α : Type}
    (data : String → Option (List (Transaction α))) (accountId : String)
    (startTime endTime : Option ℤ) : List (Transaction α) :=
  let bounds := dateRange startTime endTime
  ((data accountId).getD []).filter
    (fun tx => bounds.1 ≤ tx.postedTimestamp ∧ tx.postedTimestamp ≤ bounds.2)

/-- `getAccountTransactions` from `activities.ts`: same shape as
`getAccountStatements`, filtering on `postedTimestamp`. -/
def getAccountTransactions {α : Type}
    (data : String → Option (List (Transaction α))) (accountId : String)
    (offset limit : ℤ) (startTime endTime : Option ℤ) :
    PaginatedTransactionsResult α :=
  let filtered := filteredTransactions data accountId startTime endTime
  ⟨jsSlice filtered offset (offset + limit), filtered.length⟩

/-- `getPaymentNetworks` from `activities.ts`: the account's entry of
`accountPaymentNetworks` (`|| []`), sliced, with the full list's length as
`total`. -/
def getPaymentNetworks {α : Type} (accountPaymentNetworks : String → Option (List α))
    (accountId : String) (offset limit : ℤ) :
    PaginatedPaymentNetworksResult α :=
  let networks := (accountPaymentNetworks accountId).getD []
  ⟨jsSlice networks offset (offset + limit), networks.length⟩

/-- `getAssetTransferNetworks` from `activities.ts`: reads the same
`accountPaymentNetworks` dataset, slices it identically, and returns it under
the `assetTransferNetworks` field name. -/
def getAssetTransferNetworks {α : Type}
    (accountPaymentNetworks : String → Option (List α)) (accountId : String)
    (offset limit : ℤ) : PaginatedAssetTransferNetworksResult α :=
  let networks := (accountPaymentNetworks accountId).getD []
  ⟨jsSlice networks offset (offset + limit), networks.length⟩

/-- Every scheduled delay in a run starting at `attempt` follows the backoff
formula: the `i`-th delay is the one before attempt `attempt + 1 + i`. -/
theorem runRetriesGo_delays_getElem (p : RetryPolicy) (out : ℕ → AttemptOutcome) :
    ∀ (fuel attempt i : ℕ) (d : ℚ),
      (runRetriesGo p out fuel attempt).delays[i]? = some d →
      d = backoffDelay p (attempt + 1 + i) := by
  intro fuel
  induction fuel with
  | zero =>
      intro attempt i d hd
      cases hout : out attempt <;> simp [runRetriesGo, hout] at hd
  | succ fuel ih =>
      intro attempt i d hd
      cases hout : out attempt <;> simp only [runRetriesGo, hout] at hd
      · simp at hd
      · split at hd
        · simp at hd
        · cases i with
          | zero =>
              simp at hd
              simp [hd]
          | succ i =>
              simp only [List.getElem?_cons_succ] at hd
              have h := ih (attempt + 1) i d hd
              have harith : attempt + 1 + 1 + i = attempt + 1 + (i + 1) := by omega
              rw [harith] at h
              exact h

/-- C1: for every retry, the delay scheduled before attempt `N` (`N ≥ 2`)
equals `min(initialInterval * backoffCoefficient^(N-2), maxInterval)` exactly;
and under the configured reference policy (500ms, coefficient 2, max 5s,
10 attempts) an activity failing retryably on every attempt yields the delay
sequence 500, 1000, 2000, 4000, 5000, 5000, 5000, 5000, 5000 ms and exactly
10 attempts. -/
theorem backoff_delay_formula_and_reference_sequence :
    (∀ (p : RetryPolicy) (out : ℕ → AttemptOutcome) (N : ℕ), 2 ≤ N →
      ∀ d : ℚ, (runRetries p out).delays[N - 2]? = some d →
        d = min (p.initialInterval * p.backoffCoefficient ^ (N - 2)) p.maxInterval)
    ∧ runRetries referenceRetryPolicy
        (fun _ => .failure (chaosFailure .DATABASE_TIMEOUT))
      = ⟨10, [500, 1000, 2000, 4000, 5000, 5000, 5000, 5000, 5000],
          .failure (chaosFailure .DATABASE_TIMEOUT) 10⟩ := by
  constructor
  · intro p out N hN d hd
    have h := runRetriesGo_delays_getElem p out p.maxAttempts 1 (N - 2) d hd
    have harith : 1 + 1 + (N - 2) = 2 + (N - 2) := by omega
    have harith2 : 2 + (N - 2) - 2 = N - 2 := by omega
    rw [h, harith, backoffDelay, harith2]
  · norm_num [runRetries, runRetriesGo, backoffDelay, referenceRetryPolicy,
      chaosFailure, errorConfigs, chaosTypeName,
      show ("DATABASE_TIMEOUT" = "NonRetryableError") = False by decide]

/-- Witness for `backoff_delay_formula_and_reference_sequence`: under the
reference policy with an always-retryable failure, the delay before attempt 2
is 500 ms. -/
theorem backoff_delay_formula_witness :
    (runRetries referenceRetryPolicy
        (fun _ => .failure (chaosFailure .DATABASE_TIMEOUT))).delays[0]?
      = some 500 := by
  have hrun := backoff_delay_formula_and_reference_sequence.2
  have hd : (runRetries referenceRetryPolicy
      (fun _ => .failure (chaosFailure .DATABASE_TIMEOUT))).delays[0]?
        = some 500 := by rw [hrun]; rfl
  have h := backoff_delay_formula_and_reference_sequence.1 referenceRetryPolicy
    (fun _ => .failure (chaosFailure .DATABASE_TIMEOUT)) 2 (by norm_num) 500 hd
  exact hd

/-- C2: a failure whose kind is in the configured `nonRetryableErrorTypes`
set, or whose kind is taxonomically non-retryable (`INTERNAL_SERVER_ERROR` or
`NON_RETRYABLE_ERROR`), terminates the task after exactly 1 attempt with a
terminal failure, for every policy (hence regardless of `maxAttempts`). -/
theorem nonretryable_kind_terminates_after_one_attempt
    (p : RetryPolicy) (k : ChaosErrorType)
    (h : k = .INTERNAL_SERVER_ERROR ∨ k = .NON_RETRYABLE_ERROR ∨
      chaosTypeName k ∈ p.nonRetryableErrorTypes) :
    runRetries p (fun _ => .failure (chaosFailure k))
      = ⟨1, [], .failure (chaosFailure k) 1⟩ := by
  have hcond : (chaosFailure k).nonRetryable = true ∨
      (chaosFailure k).type ∈ p.nonRetryableErrorTypes ∨ p.maxAttempts ≤ 1 := by
    rcases h with h | h | h
    · left; rw [h]; rfl
    · left; rw [h]; rfl
    · right; left; exact h
  unfold runRetries
  cases hm : p.maxAttempts with
  | zero => simp [runRetriesGo]
  | succ n =>
      simp only [runRetriesGo]
      rw [if_pos hcond]

/-- Witness for `nonretryable_kind_terminates_after_one_attempt`: under the
reference policy a `NON_RETRYABLE_ERROR` chaos failure ends after attempt 1. -/
theorem nonretryable_kind_witness :
    runRetries referenceRetryPolicy
        (fun _ => .failure (chaosFailure .NON_RETRYABLE_ERROR))
      = ⟨1, [], .failure (chaosFailure .NON_RETRYABLE_ERROR) 1⟩ :=
  nonretryable_kind_terminates_after_one_attempt referenceRetryPolicy
    .NON_RETRYABLE_ERROR (Or.inr (Or.inl rfl))

/-- C3: a failure raised during activity execution that carries none of the
nine taxonomy kinds is classified as `INTERNAL_SERVER_ERROR`, surfaced
non-retryable, and its task is never retried (exactly 1 attempt under every
policy). -/
theorem unclassified_error_coerced_nonretryable
    (e : RaisedError) (h : ∀ (k : ChaosErrorType) (m : String), e ≠ .classified k m)
    (p : RetryPolicy) :
    classifyError e = .INTERNAL_SERVER_ERROR
    ∧ (surfacedFailure e).nonRetryable = true
    ∧ runRetries p (fun _ => .failure (surfacedFailure e))
        = ⟨1, [], .failure (surfacedFailure e) 1⟩ := by
  cases e with
  | classified k m => exact absurd rfl (h k m)
  | unclassified m =>
      refine ⟨rfl, rfl, ?_⟩
      unfold runRetries
      cases hm : p.maxAttempts with
      | zero => simp [runRetriesGo]
      | succ n =>
          simp only [runRetriesGo]
          rw [if_pos]

          left
          rfl

/-- Witness for `unclassified_error_coerced_nonretryable` at the unclassified
defect `"boom"` under the reference policy. -/
theorem unclassified_error_witness :
    classifyError (.unclassified "boom") = .INTERNAL_SERVER_ERROR
    ∧ (surfacedFailure (.unclassified "boom")).nonRetryable = true
    ∧ runRetries referenceRetryPolicy
        (fun _ => .failure (surfacedFailure (.unclassified "boom")))
        = ⟨1, [], .failure (surfacedFailure (.unclassified "boom")) 1⟩ :=
  unclassified_error_coerced_nonretryable (.unclassified "boom")
    (fun k m => by simp) referenceRetryPolicy

/-- When the injector is enabled, the error-rate check passes, and the
enabled-kinds list is non-empty, the selection index
`floor(r * length)` stays inside the list and a classified failure with the
selected kind's configured message is raised. -/
theorem maybeCauseChaos_raises (cfg : ChaosConfig) (op : String) (rs : ℕ → ℚ)
    (hen : cfg.enabled = true) (hne : cfg.enabledErrorTypes ≠ [])
    (h1 : rs 1 < 1) (hfire : ¬ rs 0 > cfg.errorRate) :
    (Int.floor (rs 1 * (cfg.enabledErrorTypes.length : ℚ))).toNat
      < cfg.enabledErrorTypes.length
    ∧ ∃ k, cfg.enabledErrorTypes[(Int.floor
            (rs 1 * (cfg.enabledErrorTypes.length : ℚ))).toNat]? = some k
        ∧ (maybeCauseChaos cfg op rs).outcome
            = .raise k (errorConfigs k).message (errorConfigs k).retryable := by
  have hlen : 0 < cfg.enabledErrorTypes.length := List.length_pos.mpr hne
  have hlenQ : (0 : ℚ) < (cfg.enabledErrorTypes.length : ℚ) := by
    exact_mod_cast hlen
  have hmul : rs 1 * (cfg.enabledErrorTypes.length : ℚ)
      < (cfg.enabledErrorTypes.length : ℚ) := by
    calc rs 1 * (cfg.enabledErrorTypes.length : ℚ)
        < 1 * (cfg.enabledErrorTypes.length : ℚ) :=
          mul_lt_mul_of_pos_right h1 hlenQ
      _ = (cfg.enabledErrorTypes.length : ℚ) := one_mul _
  have hfloor : Int.floor (rs 1 * (cfg.enabledErrorTypes.length : ℚ))
      < (cfg.enabledErrorTypes.length : ℤ) := by
    rw [Int.floor_lt]
    exact_mod_cast hmul
  have hidx : (Int.floor (rs 1 * (cfg.enabledErrorTypes.length : ℚ))).toNat
      < cfg.enabledErrorTypes.length := by omega
  refine ⟨hidx, cfg.enabledErrorTypes.get ⟨_, hidx⟩,
    List.getElem?_eq_getElem hidx, ?_⟩
  rw [maybeCauseChaos, if_neg (by rw [hen]; simp), if_neg hfire]
  simp only [List.getElem?_eq_getElem hidx]
  simp [List.get_eq_getElem]

/-- Counterexample to C4: when `CHAOS_ERROR_TYPES` is set but names no valid
kind (here `"BOGUS"`), the configured enabled-kinds list is empty, the
injector does not fall back to the full taxonomy, and — at error rate 1 with
draws `1/2`, a value `Math.random()` can take — an unclassified `TypeError`
escapes instead of a classified failure. -/
theorem empty_enabled_kinds_counterexample :
    parseEnabledErrorTypes (some "BOGUS") = []
    ∧ (maybeCauseChaos
        ⟨true, 1, parseEnabledErrorTypes (some "BOGUS")⟩
        "getAccounts" (fun _ => 1/2)).outcome = .typeError := by
  constructor
  · decide
  · rw [show parseEnabledErrorTypes (some "BOGUS") = [] from by decide]
    norm_num [maybeCauseChaos]

/-- C4 as amended: the fall-back to the full nine-kind taxonomy happens when
the error-types environment variable is unset or blank; whenever the
configured list is non-empty, the kind-selection index stays inside the list
and the injector raises a classified failure with the selected kind's
configured message (when the variable is set but names no valid kind, the
configured list is empty — see the counterexample — and an unclassified
error escapes). -/
theorem enabled_kinds_fallback_and_in_bounds_selection
    (cfg : ChaosConfig) (op : String) (rs : ℕ → ℚ)
    (hen : cfg.enabled = true) (hne : cfg.enabledErrorTypes ≠ [])
    (h1 : rs 1 < 1) (hfire : ¬ rs 0 > cfg.errorRate) :
    parseEnabledErrorTypes none = allChaosErrorTypes
    ∧ parseEnabledErrorTypes (some "") = allChaosErrorTypes
    ∧ (Int.floor (rs 1 * (cfg.enabledErrorTypes.length : ℚ))).toNat
        < cfg.enabledErrorTypes.length
    ∧ ∃ k, cfg.enabledErrorTypes[(Int.floor
            (rs 1 * (cfg.enabledErrorTypes.length : ℚ))).toNat]? = some k
        ∧ (maybeCauseChaos cfg op rs).outcome
            = .raise k (errorConfigs k).message (errorConfigs k).retryable := by
  obtain ⟨hidx, hk⟩ := maybeCauseChaos_raises cfg op rs hen hne h1 hfire
  exact ⟨rfl, rfl, hidx, hk⟩

/-- Witness for `enabled_kinds_fallback_and_in_bounds_selection`: enabled
injector, error rate 1, full taxonomy, all draws `1/2`. -/
theorem enabled_kinds_fallback_witness :
    parseEnabledErrorTypes none = allChaosErrorTypes
    ∧ parseEnabledErrorTypes (some "") = allChaosErrorTypes
    ∧ (Int.floor ((1/2 : ℚ) * ((allChaosErrorTypes.length : ℚ)))).toNat
        < allChaosErrorTypes.length
    ∧ ∃ k, allChaosErrorTypes[(Int.floor
          ((1/2 : ℚ) * ((allChaosErrorTypes.length : ℚ)))).toNat]? = some k
        ∧ (maybeCauseChaos ⟨true, 1, allChaosErrorTypes⟩ "getAccounts"
            (fun _ => 1/2)).outcome
            = .raise k (errorConfigs k).message (errorConfigs k).retryable :=
  enabled_kinds_fallback_and_in_bounds_selection
    ⟨true, 1, allChaosErrorTypes⟩ "getAccounts" (fun _ => 1/2)
    rfl (by decide) (by norm_num) (by norm_num)

/-- Counterexample to C5: with the injector enabled and `errorRate = 0`, the
draw value 0 — which `Math.random()` can return — does trigger a raise,
because the guard is `Math.random() > errorRate` and `0 > 0` is false.  So
"never raises for every value the draw can take" fails. -/
theorem error_rate_zero_counterexample :
    (0 : ℚ) ≤ 0 ∧ (0 : ℚ) < 1
    ∧ (maybeCauseChaos ⟨true, 0, allChaosErrorTypes⟩ "getAccounts"
        (fun _ => 0)).outcome
      = .raise .DATABASE_CONNECTION
          "Failed to connect to database: connection refused" true := by
  refine ⟨le_refl 0, by norm_num, ?_⟩
  norm_num [maybeCauseChaos, allChaosErrorTypes, errorConfigs]

/-- C5 as amended: with the injector enabled and a non-empty enabled-kinds
list, `errorRate = 0` raises only on the draw exactly 0 — for every positive
draw the injector is a no-op — and `errorRate = 1` raises a classified
failure on every invocation (every draw in `[0, 1)`). -/
theorem error_rate_boundaries
    (cfg : ChaosConfig) (op : String) (rs : ℕ → ℚ)
    (hen : cfg.enabled = true) (hne : cfg.enabledErrorTypes ≠ [])
    (h1 : rs 1 < 1) :
    (cfg.errorRate = 0 → 0 < rs 0 → (maybeCauseChaos cfg op rs).outcome = .noop)
    ∧ (cfg.errorRate = 1 → rs 0 < 1 →
        ∃ k, (maybeCauseChaos cfg op rs).outcome
          = .raise k (errorConfigs k).message (errorConfigs k).retryable) := by
  constructor
  · intro hr h0
    rw [maybeCauseChaos, if_neg (by rw [hen]; simp), if_pos (by rw [hr]; exact h0)]
  · intro hr h0
    obtain ⟨hidx, k, hk, hout⟩ := maybeCauseChaos_raises cfg op rs hen hne h1
      (by rw [hr]; exact not_lt.mpr (le_of_lt h0))
    exact ⟨k, hout⟩

/-- Witness for `error_rate_boundaries`: both boundary behaviors at concrete
configurations, with all draws `1/2`. -/
theorem error_rate_boundaries_witness :
    ((maybeCauseChaos ⟨true, 0, allChaosErrorTypes⟩ "getAccounts"
        (fun _ => 1/2)).outcome = .noop)
    ∧ ∃ k, (maybeCauseChaos ⟨true, 1, allChaosErrorTypes⟩ "getAccounts"
        (fun _ => 1/2)).outcome
          = .raise k (errorConfigs k).message (errorConfigs k).retryable :=
  ⟨(error_rate_boundaries ⟨true, 0, allChaosErrorTypes⟩ "getAccounts"
      (fun _ => 1/2) rfl (by decide) (by norm_num)).1 rfl (by norm_num),
   (error_rate_boundaries ⟨true, 1, allChaosErrorTypes⟩ "getAccounts"
      (fun _ => 1/2) rfl (by decide) (by norm_num)).2 rfl (by norm_num)⟩

/-- The synchronous injector's outcome, draw consumption and log text do not
depend on the operation name; the name only fills the `operation` field of
the log entries. -/
theorem maybeCauseChaos_name_independent (cfg : ChaosConfig) (rs : ℕ → ℚ)
    (n1 n2 : String) :
    (maybeCauseChaos cfg n1 rs).outcome = (maybeCauseChaos cfg n2 rs).outcome
    ∧ (maybeCauseChaos cfg n1 rs).consumed = (maybeCauseChaos cfg n2 rs).consumed
    ∧ (maybeCauseChaos cfg n1 rs).logs.map LogEntry.message
        = (maybeCauseChaos cfg n2 rs).logs.map LogEntry.message
    ∧ (maybeCauseChaos cfg n1 rs).logs.map LogEntry.operation
        = (maybeCauseChaos cfg n1 rs).logs.map (fun _ => n1) := by
  by_cases he : cfg.enabled = false
  · simp [maybeCauseChaos, he]
  · by_cases hr : rs 0 > cfg.errorRate
    · simp [maybeCauseChaos, he, hr]
    · cases hk : cfg.enabledErrorTypes[(Int.floor
          (rs 1 * (cfg.enabledErrorTypes.length : ℚ))).toNat]? <;>
        simp [maybeCauseChaos, he, hr, hk]

/-- C6: two invocations of the fault injector that differ only in the
operation name (same configuration, same random stream) produce the same
no-op/raise decision, the same raised kind and message, the same injected
latency, and the same draw consumption; the name appears only in the
`operation` field of the log entries, and the injector is a pure function of
configuration and random source. -/
theorem injector_outcome_independent_of_operation_name
    (cfg : ChaosConfig) (addLatency : Bool) (rs : ℕ → ℚ) (n1 n2 : String) :
    (maybeCauseChaosAsync cfg addLatency n1 rs).outcome
        = (maybeCauseChaosAsync cfg addLatency n2 rs).outcome
    ∧ (maybeCauseChaosAsync cfg addLatency n1 rs).latency
        = (maybeCauseChaosAsync cfg addLatency n2 rs).latency
    ∧ (maybeCauseChaosAsync cfg addLatency n1 rs).consumed
        = (maybeCauseChaosAsync cfg addLatency n2 rs).consumed
    ∧ (maybeCauseChaosAsync cfg addLatency n1 rs).logs.map LogEntry.message
        = (maybeCauseChaosAsync cfg addLatency n2 rs).logs.map LogEntry.message
    ∧ (maybeCauseChaosAsync cfg addLatency n1 rs).logs.map LogEntry.operation
        = (maybeCauseChaosAsync cfg addLatency n1 rs).logs.map (fun _ => n1) := by
  obtain ⟨ho2, hc2, hm2, hop2⟩ :=
    maybeCauseChaos_name_independent cfg (shiftStream rs 2) n1 n2
  obtain ⟨ho1, hc1, hm1, hop1⟩ :=
    maybeCauseChaos_name_independent cfg (shiftStream rs 1) n1 n2
  obtain ⟨ho0, hc0, hm0, hop0⟩ :=
    maybeCauseChaos_name_independent cfg (shiftStream rs 0) n1 n2
  by_cases he : cfg.enabled = false
  · simp [maybeCauseChaosAsync, he]
  · by_cases hlat : addLatency = true ∧ rs 0 < 3/10
    · simp only [maybeCauseChaosAsync, if_neg he, if_pos hlat]
      simp [ho2, hc2, hm2, hop2]
    · by_cases hl : addLatency = true
      · have hnot : ¬ rs 0 < 3/10 := fun h => hlat ⟨hl, h⟩
        simp only [maybeCauseChaosAsync, if_neg he, hl]
        simp [hnot, ho1, hc1, hm1, hop1]
      · simp only [maybeCauseChaosAsync, if_neg he, if_neg hlat, if_neg hl]
        simp [ho0, hc0, hm0, hop0]

/-- C7: with the injector enabled and `addLatency` set, latency is injected
exactly when the first draw is below `0.3` (probability 0.3 under a uniform
draw), the injected delay is `⌊r * 500⌋` ms — in `[0, 500)` for any draw in
`[0, 1)` — and it happens before the error-rate check: the error decision is
computed by `maybeCauseChaos` on the subsequent draws in either case, so the
two injections are driven by distinct draws and can co-occur, as the final
concrete invocation (latency 100 ms and a raised `DATABASE_TIMEOUT`) shows. -/
theorem latency_injection_before_error_check
    (cfg : ChaosConfig) (op : String) (rs : ℕ → ℚ)
    (hen : cfg.enabled = true) :
    ((maybeCauseChaosAsync cfg true op rs).latency.isSome = true ↔ rs 0 < 3/10)
    ∧ (rs 0 < 3/10 →
        (maybeCauseChaosAsync cfg true op rs).latency
            = some (Int.floor (rs 1 * 500))
        ∧ (maybeCauseChaosAsync cfg true op rs).outcome
            = (maybeCauseChaos cfg op (shiftStream rs 2)).outcome)
    ∧ (0 ≤ rs 1 → rs 1 < 1 →
        0 ≤ Int.floor (rs 1 * 500) ∧ Int.floor (rs 1 * 500) < 500)
    ∧ (¬ rs 0 < 3/10 →
        (maybeCauseChaosAsync cfg true op rs).latency = none
        ∧ (maybeCauseChaosAsync cfg true op rs).outcome
            = (maybeCauseChaos cfg op (shiftStream rs 1)).outcome)
    ∧ ((maybeCauseChaosAsync ⟨true, 1, allChaosErrorTypes⟩ true "getAccounts"
          (fun _ => 1/5)).latency = some 100
        ∧ (maybeCauseChaosAsync ⟨true, 1, allChaosErrorTypes⟩ true "getAccounts"
          (fun _ => 1/5)).outcome
          = .raise .DATABASE_TIMEOUT "Database query timed out after 30000ms"
              true) := by
  have he : ¬ cfg.enabled = false := by rw [hen]; simp
  refine ⟨?_, ?_, ?_, ?_, ?_, ?_⟩
  · by_cases hrs : rs 0 < 3/10
    · simp [maybeCauseChaosAsync, if_neg he, hrs]
    · simp [maybeCauseChaosAsync, if_neg he, hrs]
  · intro hrs
    constructor <;> simp [maybeCauseChaosAsync, if_neg he, hrs]
  · intro h0 h1
    constructor
    · exact Int.floor_nonneg.mpr (mul_nonneg h0 (by norm_num))
    · rw [Int.floor_lt]
      calc rs 1 * 500 < 1 * 500 := by
            exact mul_lt_mul_of_pos_right h1 (by norm_num)
        _ = ((500 : ℤ) : ℚ) := by norm_num
  · intro hrs
    constructor <;> simp [maybeCauseChaosAsync, if_neg he, hrs]
  · norm_num [maybeCauseChaosAsync]
  · norm_num [maybeCauseChaosAsync, maybeCauseChaos, shiftStream,
      allChaosErrorTypes, errorConfigs,
      show (Int.floor ((1/5 : ℚ) * 9)).toNat = 1 by norm_num]

/-- Witness for `latency_injection_before_error_check`: enabled injector,
error rate 1, all draws `1/5`: latency fires (`1/5 < 3/10`) with delay
`⌊100⌋ = 100` ms, the bounds hold, and a classified failure is raised on the
same invocation. -/
theorem latency_injection_witness :
    (maybeCauseChaosAsync ⟨true, 1, allChaosErrorTypes⟩ true "getAccounts"
        (fun _ => 1/5)).latency = some (Int.floor ((1/5 : ℚ) * 500))
    ∧ (maybeCauseChaosAsync ⟨true, 1, allChaosErrorTypes⟩ true "getAccounts"
        (fun _ => 1/5)).outcome
        = (maybeCauseChaos ⟨true, 1, allChaosErrorTypes⟩ "getAccounts"
            (shiftStream (fun _ => 1/5) 2)).outcome
    ∧ (0 ≤ Int.floor ((1/5 : ℚ) * 500) ∧ Int.floor ((1/5 : ℚ) * 500) < 500)
    ∧ (maybeCauseChaosAsync ⟨true, 1, allChaosErrorTypes⟩ true "getAccounts"
        (fun _ => 1/5)).latency = some 100 := by
  obtain ⟨hiff, hfire, hbounds, hnof, hconc1, hconc2⟩ :=
    latency_injection_before_error_check ⟨true, 1, allChaosErrorTypes⟩
      "getAccounts" (fun _ => 1/5) rfl
  obtain ⟨hlat, hout⟩ := hfire (by norm_num)
  exact ⟨hlat, hout, hbounds (by norm_num) (by norm_num), hconc1⟩

/-- C8: the Activity Registry contract — registering a second implementation
under an already-registered name is rejected, and invoking an unregistered
name yields a `NonRetryable` classified failure rather than a silent call of
a missing function. -/
theorem registry_rejects_duplicates_and_fails_closed {α : Type}
    (r r2 : List (String × α)) (name : String) (impl impl2 : α) :
    (registerActivity r name impl = some r2 →
      registerActivity r2 name impl2 = none)
    ∧ (r.find? (fun p => p.1 = name) = none →
        ∃ f, invokeActivity r name = .error f
          ∧ f.type = chaosTypeName .NON_RETRYABLE_ERROR
          ∧ f.nonRetryable = true) := by
  constructor
  · intro hreg
    rw [registerActivity] at hreg
    split at hreg
    · exact absurd hreg (by simp)
    · rw [registerActivity]
      rw [if_pos]
      obtain rfl : (name, impl) :: r = r2 := by
        exact Option.some_injective _ hreg
      simp
  · intro hfind
    rw [invokeActivity, hfind]
    exact ⟨_, rfl, rfl, rfl⟩

/-- Witness for `registry_rejects_duplicates_and_fails_closed`: registering
`"getAccounts"` twice in a one-entry registry fails, and invoking it on the
empty registry produces the non-retryable failure. -/
theorem registry_contract_witness :
    registerActivity [("getAccounts", 0)] "getAccounts" 1 = none
    ∧ ∃ f, invokeActivity ([] : List (String × ℕ)) "getAccounts" = .error f
        ∧ f.type = chaosTypeName .NON_RETRYABLE_ERROR
        ∧ f.nonRetryable = true :=
  ⟨(registry_rejects_duplicates_and_fails_closed ([] : List (String × ℕ))
      [("getAccounts", 0)] "getAccounts" 0 1).1 (by decide),
   (registry_rejects_duplicates_and_fails_closed ([] : List (String × ℕ))
      [("getAccounts", 0)] "getAccounts" 0 1).2 (by decide)⟩

/-- C9: for every backing dataset, account id, offset and limit,
`getAssetTransferNetworks` returns exactly the same items and the same total
as `getPaymentNetworks`, differing only in the result field's name — asset
transfer networks are served from the payment-networks data. -/
theorem asset_transfer_networks_equal_payment_networks {α : Type}
    (accountPaymentNetworks : String → Option (List α)) (accountId : String)
    (offset limit : ℤ) :
    (getAssetTransferNetworks accountPaymentNetworks accountId offset
        limit).assetTransferNetworks
      = (getPaymentNetworks accountPaymentNetworks accountId offset
          limit).paymentNetworks
    ∧ (getAssetTransferNetworks accountPaymentNetworks accountId offset
        limit).total
      = (getPaymentNetworks accountPaymentNetworks accountId offset
          limit).total :=
  ⟨rfl, rfl⟩

/-- For non-negative `offset` and `limit`, `slice(offset, offset + limit)` is
the contiguous window: drop `offset`, take `limit`. -/
theorem jsSlice_nonneg {α : Type} (l : List α) (offset limit : ℤ)
    (ho : 0 ≤ offset) (hl : 0 ≤ limit) :
    jsSlice l offset (offset + limit)
      = (l.drop offset.toNat).take limit.toNat := by
  unfold jsSlice jsSliceIdx
  rw [if_neg (not_lt.mpr (by omega : (0:ℤ) ≤ offset + limit)),
    if_neg (not_lt.mpr ho), List.drop_take]
  rcases le_or_lt offset.toNat l.length with ha | ha
  · rw [min_eq_left ha,
      show (offset + limit).toNat = offset.toNat + limit.toNat from by omega]
    apply List.take_eq_take.mpr
    simp only [List.length_drop]
    omega
  · rw [min_eq_right (le_of_lt ha), List.drop_length,
      List.drop_eq_nil_of_le (le_of_lt ha)]
    simp

/-- C10: each paginated activity returns exactly the contiguous slice
`[offset, offset+limit)` of its backing collection after date filtering where
applicable — hence at most `limit` items — and reports the size of the full
filtered collection as `total`, independent of `offset` and `limit`. -/
theorem paginated_activities_slice_window_and_full_total {α : Type}
    (accounts : List α) (stData : String → Option (List (Statement α)))
    (txData : String → Option (List (Transaction α)))
    (pnData : String → Option (List α)) (accountId : String)
    (offset limit : ℤ) (startTime endTime : Option ℤ)
    (ho : 0 ≤ offset) (hl : 0 ≤ limit) :
    ((getAccounts accounts offset limit).accounts
        = (accounts.drop offset.toNat).take limit.toNat
      ∧ (getAccounts accounts offset limit).accounts.length ≤ limit.toNat
      ∧ (getAccounts accounts offset limit).total = accounts.length)
    ∧ ((getAccountStatements stData accountId offset limit startTime
          endTime).statements
        = ((filteredStatements stData accountId startTime endTime).drop
            offset.toNat).take limit.toNat
      ∧ (getAccountStatements stData accountId offset limit startTime
          endTime).statements.length ≤ limit.toNat
      ∧ (getAccountStatements stData accountId offset limit startTime
          endTime).total
        = (filteredStatements stData accountId startTime endTime).length)
    ∧ ((getAccountTransactions txData accountId offset limit startTime
          endTime).transactions
        = ((filteredTransactions txData accountId startTime endTime).drop
            offset.toNat).take limit.toNat
      ∧ (getAccountTransactions txData accountId offset limit startTime
          endTime).transactions.length ≤ limit.toNat
      ∧ (getAccountTransactions txData accountId offset limit startTime
          endTime).total
        = (filteredTransactions txData accountId startTime endTime).length)
    ∧ ((getPaymentNetworks pnData accountId offset limit).paymentNetworks
        = (((pnData accountId).getD []).drop offset.toNat).take limit.toNat
      ∧ (getPaymentNetworks pnData accountId offset
          limit).paymentNetworks.length ≤ limit.toNat
      ∧ (getPaymentNetworks pnData accountId offset limit).total
        = ((pnData accountId).getD []).length)
    ∧ ((getAssetTransferNetworks pnData accountId offset
          limit).assetTransferNetworks
        = (((pnData accountId).getD []).drop offset.toNat).take limit.toNat
      ∧ (getAssetTransferNetworks pnData accountId offset
          limit).assetTransferNetworks.length ≤ limit.toNat
      ∧ (getAssetTransferNetworks pnData accountId offset limit).total
        = ((pnData accountId).getD []).length) := by
  refine ⟨⟨jsSlice_nonneg _ _ _ ho hl, ?_, rfl⟩,
    ⟨jsSlice_nonneg _ _ _ ho hl, ?_, rfl⟩,
    ⟨jsSlice_nonneg _ _ _ ho hl, ?_, rfl⟩,
    ⟨jsSlice_nonneg _ _ _ ho hl, ?_, rfl⟩,
    ⟨jsSlice_nonneg _ _ _ ho hl, ?_, rfl⟩⟩ <;>
  · simp only [getAccounts, getAccountStatements, getAccountTransactions,
      getPaymentNetworks, getAssetTransferNetworks]
    rw [jsSlice_nonneg _ offset limit ho hl]
    apply List.length_take_le

/-- Witness for `paginated_activities_slice_window_and_full_total` at a
concrete dataset with `offset = 1`, `limit = 2`. -/
theorem paginated_activities_witness :
    (getAccounts ["a", "b", "c", "d"] 1 2).accounts
        = ((["a", "b", "c", "d"].drop (1 : ℤ).toNat).take (2 : ℤ).toNat)
    ∧ (getAccounts ["a", "b", "c", "d"] 1 2).total = 4
    ∧ (getPaymentNetworks (fun _ => none) "acct-1" 1 2).paymentNetworks
        = ([] : List String)
    ∧ (getPaymentNetworks (fun _ => (none : Option (List String)))
        "acct-1" 1 2).total = 0 := by
  obtain ⟨⟨hacc, hacclen, hacctot⟩, hst, htx, ⟨hpn, hpnlen, hpntot⟩, hat⟩ :=
    paginated_activities_slice_window_and_full_total
      ["a", "b", "c", "d"]
      (fun _ => (none : Option (List (Statement String))))
      (fun _ => (none : Option (List (Transaction String))))
      (fun _ => (none : Option (List String))) "acct-1" 1 2 none none
      (by norm_num) (by norm_num)
  exact ⟨hacc, hacctot, by rw [hpn]; rfl, hpntot⟩

end CoreExchange
